import Mathlib

/-!
# Verification of the tablet bootstrap subsystem (src/kudu/tablet/tablet_bootstrap.cc)

A shallow embedding of the WAL-replay core of tablet bootstrap: the replay
state machine (`valid_sequence`, `CheckSequentialReplicateId`,
`UpdateCommittedOpId`, `HandleEntry` / `HandleReplicateMessage` /
`HandleCommitMessage` / `HandleEntryPair`), the durability oracle
(`WasStoreAlreadyFlushed`), the segment replay loop (`PlaySegments`) and the
orchestrator case analysis (`Bootstrap`).

External collaborators (the tablet, the log writer, the clock, consensus
metadata) are abstracted: the three operation replayers and the clock update
are an environment of status-returning calls (`ReplayEnv`), and the new log
is a list of entries to which appends always succeed. Protobuf messages are
plain structures; accessing an unset optional field yields the protobuf
default instance, modelled with `Option.getD`.
-/

namespace Kudu

/-- An operation id: a (term, index) pair. (consensus.proto OpId). -/
structure OpId where
  term : Nat
  index : Nat
deriving DecidableEq, Repr

/-- Modelled from the spec: the sentinel (0,0) denotes "uninitialized /
minimum" (consensus::MinimumOpId(), opid_util.cc is not part of the sources). -/
def MinimumOpId : OpId := ⟨0, 0⟩

/-- Modelled from the spec: OpIds are "totally ordered first by term then by
index" (consensus::OpIdCompare, opid_util.cc is not part of the sources).
Returns a negative value, zero, or a positive value as in the C++ comparator. -/
def OpIdCompare (a b : OpId) : Int :=
  if a.term < b.term then -1
  else if b.term < a.term then 1
  else if a.index < b.index then -1
  else if b.index < a.index then 1
  else 0

/-- Protobuf text rendering of an OpId, as ShortDebugString produces it. -/
def OpId.shortDebugString (a : OpId) : String :=
  "term: " ++ toString a.term ++ " index: " ++ toString a.index

/-- The operation type discriminator (consensus.proto OperationType). -/
inductive OperationType where
  | UNKNOWN_OP
  | WRITE_OP
  | ALTER_SCHEMA_OP
  | CHANGE_CONFIG_OP
  | OP_ABORT
deriving DecidableEq, Repr

def OperationType_Name : OperationType → String
  | OperationType.UNKNOWN_OP => "UNKNOWN_OP"
  | OperationType.WRITE_OP => "WRITE_OP"
  | OperationType.ALTER_SCHEMA_OP => "ALTER_SCHEMA_OP"
  | OperationType.CHANGE_CONFIG_OP => "CHANGE_CONFIG_OP"
  | OperationType.OP_ABORT => "OP_ABORT"

/-- A destination memory store of one row-level effect (MemStoreTargetPB):
either the memrowset (`mrs_id` set) or a rowset's delta memstore
(`rs_id`, `dms_id`). The code asserts exactly one shape is populated. -/
inductive MemStoreTarget where
  | mrs (mrs_id : Int)
  | drs (rs_id : Int) (dms_id : Int)
deriving DecidableEq, Repr

def MemStoreTarget.shortDebugString : MemStoreTarget → String
  | MemStoreTarget.mrs m => "mrs_id: " ++ toString m
  | MemStoreTarget.drs r d => "rs_id: " ++ toString r ++ " dms_id: " ++ toString d

/-- Per-row outcome recorded in a commit (OperationResultPB): either a failure
status or the list of mutated stores. -/
structure OperationResult where
  failed_status : Option String
  mutated_stores : List MemStoreTarget
deriving DecidableEq, Repr

/-- The replicated message payload (ReplicateMsg); the claims only inspect its
operation type, the request bodies stay opaque. -/
structure ReplicateMsg where
  op_type : OperationType
deriving DecidableEq, Repr

/-- A commit/abort record (CommitMsg): the OpId it applies to (the field is
spelled `commited_op_id` in the proto), the op-type discriminator, the per-row
result and the commit timestamp. -/
structure CommitMsg where
  commited_op_id : OpId
  op_type : OperationType
  result : List OperationResult
  timestamp : Nat
deriving DecidableEq, Repr

/-- Default CommitMsg instance (what protobuf getters return for an unset
`commit` field). -/
def defaultCommitMsg : CommitMsg :=
  { commited_op_id := ⟨0, 0⟩, op_type := OperationType.UNKNOWN_OP,
    result := [], timestamp := 0 }

/-- An operation envelope (OperationPB): an optional id, and at most one of a
replicate or a commit payload. -/
structure Operation where
  id : Option OpId
  replicate : Option ReplicateMsg
  commit : Option CommitMsg
deriving DecidableEq, Repr

/-- Log entry types (log.proto LogEntryTypePB); the replay core only accepts
OPERATION. -/
inductive LogEntryType where
  | OPERATION
  | FLUSH_MARKER
deriving DecidableEq, Repr

def LogEntryType.name : LogEntryType → String
  | LogEntryType.OPERATION => "OPERATION"
  | LogEntryType.FLUSH_MARKER => "FLUSH_MARKER"

/-- A log entry (LogEntryPB): a typed envelope around an operation. -/
structure LogEntry where
  type : LogEntryType
  operation : Operation
deriving DecidableEq, Repr

def Operation.shortDebugString (op : Operation) : String :=
  match op.id with
  | some i => "id: " ++ i.shortDebugString
  | none => ""

def LogEntry.shortDebugString (e : LogEntry) : String :=
  "type: " ++ e.type.name ++ " " ++ e.operation.shortDebugString

/-- Status values produced by the bootstrap core (util/status.h). Only the
kinds the replayed code constructs are modelled; each carries its message. -/
inductive Status where
  | OK
  | Corruption (msg : String)
  | IllegalState (msg : String)
  | RuntimeError (msg : String)
  | AlreadyPresent (msg : String)
  | IOError (msg : String)
deriving DecidableEq, Repr

def Status.isOK : Status → Bool
  | Status.OK => true
  | _ => false

def Status.isCorruption : Status → Bool
  | Status.Corruption _ => true
  | _ => false

def Status.isIllegalState : Status → Bool
  | Status.IllegalState _ => true
  | _ => false

def Status.message : Status → String
  | Status.OK => ""
  | Status.Corruption m => m
  | Status.IllegalState m => m
  | Status.RuntimeError m => m
  | Status.AlreadyPresent m => m
  | Status.IOError m => m

/-- Status::CloneAndPrepend as used through RETURN_NOT_OK_PREPEND. -/
def Status.prepend (msg : String) : Status → Status
  | Status.OK => Status.OK
  | Status.Corruption m => Status.Corruption (msg ++ ": " ++ m)
  | Status.IllegalState m => Status.IllegalState (msg ++ ": " ++ m)
  | Status.RuntimeError m => Status.RuntimeError (msg ++ ": " ++ m)
  | Status.AlreadyPresent m => Status.AlreadyPresent (msg ++ ": " ++ m)
  | Status.IOError m => Status.IOError (msg ++ ": " ++ m)

/-- Per-rowset durability metadata (RowSetMetadata, external read-only
collaborator). -/
structure RowSetMetadata where
  id : Int
  last_durable_redo_dms_id : Int
deriving DecidableEq, Repr

/-- The tablet metadata slice the durability oracle consults (TabletMetadata,
external read-only collaborator). -/
structure TabletMetadata where
  last_durable_mrs_id : Int
  rowsets : List RowSetMetadata
deriving DecidableEq, Repr

/-- Modelled from the spec: "look up the rowset by `target.rs_id` in the
tablet metadata" (TabletMetadata::GetRowSetForTests, server/metadata.cc is not
part of the sources). Absent rowsets yield `none`. -/
def GetRowSetForTests (meta : TabletMetadata) (rs_id : Int) : Option RowSetMetadata :=
  meta.rowsets.find? (fun rs => decide (rs.id = rs_id))

/-- TabletBootstrap::WasStoreAlreadyFlushed: the durability oracle. -/
def WasStoreAlreadyFlushed (meta : TabletMetadata) (target : MemStoreTarget) : Bool :=
  match target with
  | MemStoreTarget.mrs mrs_id =>
    -- The original mutation went to the MRS. It is flushed if it went to an
    -- MRS with a lower ID than the latest flushed one.
    decide (mrs_id ≤ meta.last_durable_mrs_id)
  | MemStoreTarget.drs rs_id dms_id =>
    -- The original mutation went to a DRS's delta store.
    match GetRowSetForTests meta rs_id with
    | none => true -- if we can't find the row_set it was compacted
    | some row_set =>
      -- if it exists we check if the mutation is already flushed
      if decide (dms_id ≤ row_set.last_durable_redo_dms_id) then true else false

/-- The replay state (struct ReplayState): previous replicate id, highest
committed id, and the pending (unmatched) replicates keyed by OpId. The C++
unordered_map is modelled as an association list with unique keys. -/
structure ReplayState where
  prev_op_id : OpId
  committed_op_id : OpId
  pending_replicates : List (OpId × LogEntry)
deriving DecidableEq, Repr

/-- The ReplayState constructor: both ids start at (0,0), no pending
replicates. -/
def initReplayState : ReplayState :=
  { prev_op_id := ⟨0, 0⟩, committed_op_id := ⟨0, 0⟩, pending_replicates := [] }

/-- ReplayState::valid_sequence: whether `b` may immediately follow `a`. -/
def valid_sequence (a b : OpId) : Bool :=
  if a.term = 0 ∧ a.index = 0 then
    -- Not initialized - can start with any opid.
    true
  else if b.term = a.term ∧ b.index ≠ a.index + 1 then
    -- Within the same term, each entry should have an index exactly one
    -- higher than the previous.
    false
  else if b.term < a.term then
    -- If the terms don't match, then the new term should be higher.
    false
  else
    true

/-- ReplayState::CheckSequentialReplicateId: return a Corruption status if
`op.id` is out-of-sequence, otherwise advance `prev_op_id`. -/
def CheckSequentialReplicateId (state : ReplayState) (op : Operation) :
    ReplayState × Status :=
  let opid := op.id.getD ⟨0, 0⟩
  if !(valid_sequence state.prev_op_id opid) then
    let op_desc := toString opid.term ++ "," ++ toString opid.index
      ++ " REPLICATE (Type: "
      ++ OperationType_Name ((op.replicate.getD ⟨OperationType.UNKNOWN_OP⟩).op_type) ++ ")"
    (state, Status.Corruption
      ("Unexpected opid following opid " ++ state.prev_op_id.shortDebugString
        ++ ". Operation: " ++ op_desc))
  else
    ({ state with prev_op_id := opid }, Status.OK)

/-- ReplayState::UpdateCommittedOpId. -/
def UpdateCommittedOpId (state : ReplayState) (id : OpId) : ReplayState :=
  if OpIdCompare id state.committed_op_id > 0 then
    { state with committed_op_id := id }
  else
    state

/-- The maximum of two OpIds under the (term, index) lexicographic order;
this is the order the spec describes. -/
def OpId.lexMax (a b : OpId) : OpId :=
  if a.term < b.term ∨ (a.term = b.term ∧ a.index < b.index) then b else a

theorem valid_sequence_iff (a b : OpId) :
    valid_sequence a b = true ↔
      (a = ⟨0, 0⟩ ∨ (b.term = a.term ∧ b.index = a.index + 1) ∨ a.term < b.term) := by
  obtain ⟨ta, ia⟩ := a
  obtain ⟨tb, ib⟩ := b
  simp only [valid_sequence, OpId.mk.injEq]
  split
  · simp
    omega
  · split
    · simp
      omega
    · split
      · simp
        omega
      · simp
        omega

/-- C1: the replay state machine accepts a replicate with id `new` right after
`prev` exactly when `prev = (0,0)`, or `new.term = prev.term` with
`new.index = prev.index + 1`, or `new.term > prev.term`; every other pair is
rejected by `CheckSequentialReplicateId` with a Corruption status. -/
theorem C1_check_sequential_replicate_id (state : ReplayState) (op : Operation) :
    (((CheckSequentialReplicateId state op).2).isOK = true ↔
      (state.prev_op_id = ⟨0, 0⟩ ∨
        ((op.id.getD ⟨0, 0⟩).term = state.prev_op_id.term ∧
          (op.id.getD ⟨0, 0⟩).index = state.prev_op_id.index + 1) ∨
        (op.id.getD ⟨0, 0⟩).term > state.prev_op_id.term)) ∧
    (((CheckSequentialReplicateId state op).2).isCorruption = true ↔
      ¬ (state.prev_op_id = ⟨0, 0⟩ ∨
        ((op.id.getD ⟨0, 0⟩).term = state.prev_op_id.term ∧
          (op.id.getD ⟨0, 0⟩).index = state.prev_op_id.index + 1) ∨
        (op.id.getD ⟨0, 0⟩).term > state.prev_op_id.term)) := by
  have h := valid_sequence_iff state.prev_op_id (op.id.getD ⟨0, 0⟩)
  cases hv : valid_sequence state.prev_op_id (op.id.getD ⟨0, 0⟩) with
  | true =>
    constructor
    · simp only [CheckSequentialReplicateId, hv, Bool.not_true, Bool.false_eq_true,
        if_false, Status.isOK, true_iff]
      exact h.mp hv
    · simp only [CheckSequentialReplicateId, hv, Bool.not_true, Bool.false_eq_true,
        if_false, Status.isCorruption, Bool.false_eq_true, false_iff, not_not]
      exact h.mp hv
  | false =>
    have hnc : ¬ (state.prev_op_id = ⟨0, 0⟩ ∨
        ((op.id.getD ⟨0, 0⟩).term = state.prev_op_id.term ∧
          (op.id.getD ⟨0, 0⟩).index = state.prev_op_id.index + 1) ∨
        (op.id.getD ⟨0, 0⟩).term > state.prev_op_id.term) := by
      intro hc
      exact absurd (h.mpr hc) (by simp [hv])
    constructor
    · simp only [CheckSequentialReplicateId, hv, Bool.not_false, if_true,
        Status.isOK, Bool.false_eq_true, false_iff]
      exact hnc
    · simp only [CheckSequentialReplicateId, hv, Bool.not_false, if_true,
        Status.isCorruption, true_iff]
      exact hnc

/-- The external collaborators HandleEntryPair drives, abstracted as
status-returning calls: the three operation replayers
(TabletBootstrap::PlayWriteRequest / PlayAlterSchemaRequest /
PlayChangeConfigRequest, which internally mutate the tablet and append the
reconstructed commit to the new log) and TabletBootstrap::UpdateClock. -/
structure ReplayEnv where
  playWrite : Operation → Operation → Status
  playAlterSchema : Operation → Operation → Status
  playChangeConfig : Operation → Operation → Status
  updateClock : Nat → Status

/-- Observable calls HandleEntryPair makes into the collaborators; an empty
trace means neither a replayer nor the clock was touched. -/
inductive Effect where
  | PlayWrite
  | PlayAlterSchema
  | PlayChangeConfig
  | UpdateClock (timestamp : Nat)
deriving DecidableEq, Repr

/-- An environment in which every collaborator call succeeds. -/
def trivialEnv : ReplayEnv :=
  { playWrite := fun _ _ => Status.OK,
    playAlterSchema := fun _ _ => Status.OK,
    playChangeConfig := fun _ _ => Status.OK,
    updateClock := fun _ => Status.OK }

/-- Dispatch of TabletBootstrap::HandleEntryPair on the commit's op-type. -/
def HandleEntryPairC (env : ReplayEnv) (replicate_entry commit_entry : LogEntry)
    (commit : CommitMsg) : Status × List Effect :=
  match commit.op_type with
  | OperationType.OP_ABORT =>
    -- aborted write, log and continue; return here so we don't update the
    -- clock as OP_ABORT's have invalid timestamps.
    (Status.OK, [])
  | OperationType.WRITE_OP =>
    match env.playWrite replicate_entry.operation commit_entry.operation with
    | Status.OK =>
      (env.updateClock commit.timestamp,
        [Effect.PlayWrite, Effect.UpdateClock commit.timestamp])
    | st =>
      (st.prepend ("Failed to play write request. ReplicateMsg: "
          ++ replicate_entry.operation.shortDebugString
          ++ " CommitMsg: " ++ commit_entry.operation.shortDebugString),
        [Effect.PlayWrite])
  | OperationType.ALTER_SCHEMA_OP =>
    match env.playAlterSchema replicate_entry.operation commit_entry.operation with
    | Status.OK =>
      (env.updateClock commit.timestamp,
        [Effect.PlayAlterSchema, Effect.UpdateClock commit.timestamp])
    | st =>
      (st.prepend ("Failed to play alter schema request. ReplicateMsg: "
          ++ replicate_entry.operation.shortDebugString
          ++ " CommitMsg: " ++ commit_entry.operation.shortDebugString),
        [Effect.PlayAlterSchema])
  | OperationType.CHANGE_CONFIG_OP =>
    match env.playChangeConfig replicate_entry.operation commit_entry.operation with
    | Status.OK =>
      (env.updateClock commit.timestamp,
        [Effect.PlayChangeConfig, Effect.UpdateClock commit.timestamp])
    | st =>
      (st.prepend ("Failed to play change config. request. ReplicateMsg: "
          ++ replicate_entry.operation.shortDebugString
          ++ " CommitMsg: " ++ commit_entry.operation.shortDebugString),
        [Effect.PlayChangeConfig])
  | OperationType.UNKNOWN_OP =>
    (Status.IllegalState ("Unsupported commit entry type: "
        ++ OperationType_Name commit.op_type), [])

/-- TabletBootstrap::HandleEntryPair: replay one matched (replicate, commit)
pair, then update the clock with the commit timestamp. -/
def HandleEntryPair (env : ReplayEnv) (replicate_entry commit_entry : LogEntry) :
    Status × List Effect :=
  HandleEntryPairC env replicate_entry commit_entry
    (commit_entry.operation.commit.getD defaultCommitMsg)

/-- TabletBootstrap::HandleReplicateMessage: check the sequence, append the
entry to the new log as is, then insert it into `pending_replicates`
(duplicate key is corruption). -/
def HandleReplicateMessage (state : ReplayState) (log : List LogEntry)
    (entry : LogEntry) : ReplayState × List LogEntry × Status :=
  match CheckSequentialReplicateId state entry.operation with
  | (state1, Status.OK) =>
    -- Append the replicate message to the log as is.
    let log1 := log ++ [entry]
    let key := entry.operation.id.getD ⟨0, 0⟩
    match state1.pending_replicates.find? (fun p => decide (p.1 = key)) with
    | some existing =>
      -- We already had an entry with the same ID.
      (state1, log1, Status.Corruption
        ("Found previous entry with the same id: " ++ existing.2.shortDebugString))
    | none =>
      ({ state1 with pending_replicates := state1.pending_replicates ++ [(key, entry)] },
        log1, Status.OK)
  | (_, st) => (state, log, st)

/-- The first mutated store of the commit's result that the durability oracle
reports as not already flushed, scanning ops and their stores in order. -/
def findUnflushedStore (meta : TabletMetadata) (result : List OperationResult) :
    Option MemStoreTarget :=
  ((result.map (fun r => r.mutated_stores)).flatten).find?
    (fun t => !(WasStoreAlreadyFlushed meta t))

/-- TabletBootstrap::HandleCommitMessage: raise `committed_op_id`, then either
replay the matching pending replicate or, for an orphan commit, require every
mutated store to be already flushed. -/
def HandleCommitMessage (env : ReplayEnv) (meta : TabletMetadata)
    (state : ReplayState) (entry : LogEntry) : ReplayState × Status × List Effect :=
  let commit := entry.operation.commit.getD defaultCommitMsg
  let committed_op_id := commit.commited_op_id
  let state1 := UpdateCommittedOpId state committed_op_id
  match state1.pending_replicates.find? (fun p => decide (p.1 = committed_op_id)) with
  | some existing =>
    -- We found a match.
    let state2 := { state1 with pending_replicates :=
      state1.pending_replicates.filter (fun p => !(decide (p.1 = committed_op_id))) }
    let res := HandleEntryPair env existing.2 entry
    (state2, res.1, res.2)
  | none =>
    match findUnflushedStore meta commit.result with
    | some mutated_store =>
      (state1, Status.Corruption
        ("Orphan commit " ++ commit.commited_op_id.shortDebugString
          ++ " has a mutated store " ++ mutated_store.shortDebugString
          ++ " that was NOT already flushed"), [])
    | none =>
      -- Ignoring orphan commit.
      (state1, Status.OK, [])

/-- TabletBootstrap::HandleEntry: dispatch one log entry into the replay
state machine. -/
def HandleEntry (env : ReplayEnv) (meta : TabletMetadata) (state : ReplayState)
    (log : List LogEntry) (entry : LogEntry) :
    ReplayState × List LogEntry × Status × List Effect :=
  match entry.type with
  | LogEntryType.OPERATION =>
    if entry.operation.replicate.isSome then
      let r := HandleReplicateMessage state log entry
      (r.1, r.2.1, r.2.2, [])
    else if entry.operation.commit.isSome then
      -- check the unpaired ops for the matching replicate msg
      let r := HandleCommitMessage env meta state entry
      (r.1, log, r.2.1, r.2.2)
    else
      (state, log, Status.OK, [])
  | t =>
    (state, log, Status.Corruption ("Unexpected log entry type: " ++ t.name), [])

/-- The entry loop of TabletBootstrap::PlaySegments: feed the decoded entries
of the recovery log, in order, into the state machine, stopping at the first
error. Segment boundaries only affect diagnostics and are elided. -/
def replayEntries (env : ReplayEnv) (meta : TabletMetadata) :
    ReplayState → List LogEntry → List LogEntry → ReplayState × List LogEntry × Status
  | state, log, [] => (state, log, Status.OK)
  | state, log, entry :: rest =>
    match HandleEntry env meta state log entry with
    | (s, l, Status.OK, _) => replayEntries env meta s l rest
    | (s, l, st, _) => (s, l, st)

/-- The bootstrap information handed to consensus (ConsensusBootstrapInfo). -/
structure BootstrapResult where
  last_id : OpId
  last_committed_id : OpId
  orphaned_replicates : List Operation
deriving DecidableEq, Repr

/-- TabletBootstrap::PlaySegments: replay every entry from a fresh ReplayState
into a fresh log; on success the surviving pending replicates become the
orphaned replicates and the final cursor ids fill the bootstrap result. -/
def PlaySegments (env : ReplayEnv) (meta : TabletMetadata)
    (entries : List LogEntry) : Except Status (BootstrapResult × List LogEntry) :=
  match replayEntries env meta initReplayState [] entries with
  | (s, l, Status.OK) =>
    Except.ok
      ({ last_id := s.prev_op_id,
         last_committed_id := s.committed_op_id,
         orphaned_replicates := s.pending_replicates.map (fun p => p.2.operation) }, l)
  | (_, _, st) => Except.error st

/-- The persisted remote-bootstrap state of the tablet
(TabletBootstrapStatePB); modelled from the spec: any value other than
REMOTE_BOOTSTRAP_DONE must refuse local replay. -/
inductive TabletBootstrapStatePB where
  | REMOTE_BOOTSTRAP_DONE
  | REMOTE_BOOTSTRAP_IN_PROGRESS
deriving DecidableEq, Repr

def TabletBootstrapStatePB_Name : TabletBootstrapStatePB → String
  | TabletBootstrapStatePB.REMOTE_BOOTSTRAP_DONE => "REMOTE_BOOTSTRAP_DONE"
  | TabletBootstrapStatePB.REMOTE_BOOTSTRAP_IN_PROGRESS => "REMOTE_BOOTSTRAP_IN_PROGRESS"

/-- TabletBootstrap::Bootstrap: the orchestrator's decision structure. The
external probes are passed in as their results: `remote_bootstrap_state` from
the tablet metadata, `fetched_blocks` from FetchBlocksAndOpenTablet (true iff
the opened tablet has row-sets), `needs_recovery` from FetchLogSegments, and
`entries` as the decoded contents of the recovery log. External loads,
metadata pinning and directory manipulation succeed silently here. -/
def Bootstrap (tablet_id : String)
    (remote_bootstrap_state : TabletBootstrapStatePB)
    (fetched_blocks needs_recovery : Bool)
    (env : ReplayEnv) (meta : TabletMetadata) (entries : List LogEntry) :
    Except Status (BootstrapResult × List LogEntry) :=
  if remote_bootstrap_state ≠ TabletBootstrapStatePB.REMOTE_BOOTSTRAP_DONE then
    Except.error (Status.Corruption
      ("Unable to locally bootstrap tablet " ++ tablet_id ++ ": "
        ++ "TabletMetadata bootstrap state is "
        ++ TabletBootstrapStatePB_Name remote_bootstrap_state))
  else if !fetched_blocks && !needs_recovery then
    -- This is a new tablet: open a new (empty) log and return the sentinel ids.
    Except.ok
      ({ last_id := MinimumOpId, last_committed_id := MinimumOpId,
         orphaned_replicates := [] }, [])
  else if fetched_blocks && !needs_recovery then
    -- If there were blocks there must be segments to replay.
    Except.error (Status.IllegalState
      ("Tablet: " ++ tablet_id ++ " had rowsets but no log segments could be found."))
  else
    PlaySegments env meta entries

theorem updateCommittedOpId_pending (state : ReplayState) (id : OpId) :
    (UpdateCommittedOpId state id).pending_replicates = state.pending_replicates := by
  unfold UpdateCommittedOpId
  split <;> rfl

theorem updateCommittedOpId_committed (state : ReplayState) (id : OpId) :
    (UpdateCommittedOpId state id).committed_op_id =
      OpId.lexMax state.committed_op_id id := by
  obtain ⟨t, i⟩ := id
  unfold UpdateCommittedOpId OpId.lexMax OpIdCompare
  split_ifs <;> first | rfl | (exfalso; omega)

theorem checkSeq_pending (state : ReplayState) (op : Operation) :
    ((CheckSequentialReplicateId state op).1).pending_replicates =
      state.pending_replicates := by
  simp only [CheckSequentialReplicateId]
  split <;> rfl

theorem checkSeq_committed (state : ReplayState) (op : Operation) :
    ((CheckSequentialReplicateId state op).1).committed_op_id =
      state.committed_op_id := by
  simp only [CheckSequentialReplicateId]
  split <;> rfl

/-- C3: the durability oracle. For an MRS target it answers true iff
`mrs_id ≤ last_durable_mrs_id`; for a DRS target it answers true when the
rowset was compacted away, and otherwise iff
`dms_id ≤ last_durable_redo_dms_id`. As a Lean function it is total and
pure: no side effects, no failure mode. -/
theorem C3_was_store_already_flushed (meta : TabletMetadata) (target : MemStoreTarget) :
    WasStoreAlreadyFlushed meta target = true ↔
      (match target with
       | MemStoreTarget.mrs mrs_id => mrs_id ≤ meta.last_durable_mrs_id
       | MemStoreTarget.drs rs_id dms_id =>
         match GetRowSetForTests meta rs_id with
         | none => True
         | some row_set => dms_id ≤ row_set.last_durable_redo_dms_id) := by
  cases target with
  | mrs m => simp [WasStoreAlreadyFlushed]
  | drs r d =>
    cases h : GetRowSetForTests meta r with
    | none => simp [WasStoreAlreadyFlushed, h]
    | some rs => simp [WasStoreAlreadyFlushed, h]

/-- C5: `committed_op_id` is monotone. Every commit entry processed (matched
or orphan, even one whose handling then fails) leaves `committed_op_id` at
the maximum, under the (term, index) order, of its previous value and the
commit's `committed_op_id`; and handling a replicate never changes it. -/
theorem C5_committed_op_id_monotone (env : ReplayEnv) (meta : TabletMetadata)
    (state : ReplayState) (entry : LogEntry) :
    ((HandleCommitMessage env meta state entry).1).committed_op_id =
      OpId.lexMax state.committed_op_id
        ((entry.operation.commit.getD defaultCommitMsg).commited_op_id) ∧
    ∀ (state2 : ReplayState) (log : List LogEntry) (e : LogEntry),
      ((HandleReplicateMessage state2 log e).1).committed_op_id =
        state2.committed_op_id := by
  constructor
  · unfold HandleCommitMessage
    dsimp only
    have hu := updateCommittedOpId_committed state
      ((entry.operation.commit.getD defaultCommitMsg).commited_op_id)
    split
    · exact hu
    · split
      · exact hu
      · exact hu
  · intro state2 log e
    have hcs := checkSeq_committed state2 e.operation
    unfold HandleReplicateMessage
    rcases h : CheckSequentialReplicateId state2 e.operation with ⟨s1, st⟩
    rw [h] at hcs
    cases st with
    | OK =>
      dsimp only
      split
      · exact hcs
      · exact hcs
    | Corruption m => rfl
    | IllegalState m => rfl
    | RuntimeError m => rfl
    | AlreadyPresent m => rfl
    | IOError m => rfl

/-- C6: a matched pair whose commit op-type is OP_ABORT is a no-op:
HandleEntryPair returns OK with an empty collaborator trace, so no replayer
runs, the tablet is untouched, nothing further is appended to the new log,
and the clock is not updated. -/
theorem C6_abort_pair_is_noop (env : ReplayEnv) (replicate_entry commit_entry : LogEntry)
    (h : (commit_entry.operation.commit.getD defaultCommitMsg).op_type =
      OperationType.OP_ABORT) :
    HandleEntryPair env replicate_entry commit_entry = (Status.OK, []) := by
  unfold HandleEntryPair HandleEntryPairC
  rw [h]

/-- C7: a tablet opened with existing row-sets (`fetched_blocks = true`) but
no recovery needed (`needs_recovery = false`) makes Bootstrap fail with
IllegalState; the result does not depend on the log entries, so no segment is
replayed. -/
theorem C7_rowsets_but_no_segments (tablet_id : String) (env : ReplayEnv)
    (meta : TabletMetadata) (entries : List LogEntry) :
    Bootstrap tablet_id TabletBootstrapStatePB.REMOTE_BOOTSTRAP_DONE true false
        env meta entries =
      Except.error (Status.IllegalState
        ("Tablet: " ++ tablet_id ++ " had rowsets but no log segments could be found.")) := by
  rfl

/-- C9: an OPERATION entry that carries neither a replicate nor a commit
payload falls through both handlers: HandleEntry returns OK leaving the
replay state and the new log untouched, with no collaborator calls. -/
theorem C9_operation_without_payload_is_ok (env : ReplayEnv) (meta : TabletMetadata)
    (state : ReplayState) (log : List LogEntry) (entry : LogEntry)
    (ht : entry.type = LogEntryType.OPERATION)
    (hr : entry.operation.replicate = none)
    (hc : entry.operation.commit = none) :
    HandleEntry env meta state log entry = (state, log, Status.OK, []) := by
  unfold HandleEntry
  rw [ht]
  simp [hr, hc]

theorem findUnflushedStore_isSome_iff (meta : TabletMetadata)
    (result : List OperationResult) :
    (findUnflushedStore meta result).isSome = true ↔
      result.any (fun r =>
        r.mutated_stores.any (fun t => !(WasStoreAlreadyFlushed meta t))) = true := by
  simp only [findUnflushedStore, List.find?_isSome, List.mem_flatten, List.mem_map,
    List.any_eq_true]
  constructor
  · rintro ⟨t, ⟨l, ⟨r, hr, rfl⟩, ht⟩, hw⟩
    exact ⟨r, hr, t, ht, hw⟩
  · rintro ⟨r, hr, t, ht, hw⟩
    exact ⟨t, ⟨r.mutated_stores, ⟨r, hr, rfl⟩, ht⟩, hw⟩

/-- C2: handling an orphan commit (no pending replicate carries its
`committed_op_id`) fails with Corruption exactly when some mutated store in
the commit's result is not already flushed per the durability oracle; when
every store is flushed the commit is dropped and handling returns OK. -/
theorem C2_orphan_commit_corruption (env : ReplayEnv) (meta : TabletMetadata)
    (state : ReplayState) (entry : LogEntry) (commit : CommitMsg)
    (hc : entry.operation.commit = some commit)
    (horphan : state.pending_replicates.find?
        (fun p => decide (p.1 = commit.commited_op_id)) = none) :
    ((((HandleCommitMessage env meta state entry).2.1).isCorruption = true) ↔
      commit.result.any (fun r =>
        r.mutated_stores.any (fun t => !(WasStoreAlreadyFlushed meta t))) = true) ∧
    (commit.result.any (fun r =>
        r.mutated_stores.any (fun t => !(WasStoreAlreadyFlushed meta t))) = false →
      (HandleCommitMessage env meta state entry).2.1 = Status.OK) := by
  have hb := findUnflushedStore_isSome_iff meta commit.result
  unfold HandleCommitMessage
  simp only [hc, Option.getD_some]
  rw [updateCommittedOpId_pending, horphan]
  cases hf : findUnflushedStore meta commit.result with
  | none =>
    rw [hf] at hb
    simp only [Option.isSome_none, Bool.false_eq_true, false_iff] at hb
    dsimp only
    constructor
    · simp only [Status.isCorruption, Bool.false_eq_true, false_iff]
      exact hb
    · intro _
      rfl
  | some t =>
    rw [hf] at hb
    simp only [Option.isSome_some, true_iff] at hb
    dsimp only
    constructor
    · simp only [Status.isCorruption, true_iff]
      exact hb
    · intro hfalse
      rw [hb] at hfalse
      exact absurd hfalse (by simp)

/-- C10: HandleReplicateMessage appends the entry to the new log before the
duplicate-OpId check, so when a duplicate in `pending_replicates` makes it
return Corruption, the new log has nevertheless grown by the duplicate entry
(and `prev_op_id` has advanced): the error path is not atomic. -/
theorem C10_duplicate_appended_before_error (state : ReplayState)
    (log : List LogEntry) (entry : LogEntry)
    (hseq : (CheckSequentialReplicateId state entry.operation).2 = Status.OK)
    (hdup : ((CheckSequentialReplicateId state entry.operation).1).pending_replicates.find?
        (fun p => decide (p.1 = entry.operation.id.getD ⟨0, 0⟩)) ≠ none) :
    (HandleReplicateMessage state log entry).2.1 = log ++ [entry] ∧
    ((HandleReplicateMessage state log entry).2.2).isCorruption = true := by
  unfold HandleReplicateMessage
  rcases h : CheckSequentialReplicateId state entry.operation with ⟨s1, st⟩
  rw [h] at hseq hdup
  dsimp only at hseq hdup
  subst hseq
  dsimp only
  cases hf : s1.pending_replicates.find?
      (fun p => decide (p.1 = entry.operation.id.getD ⟨0, 0⟩)) with
  | none => exact absurd hf hdup
  | some existing =>
    exact ⟨rfl, rfl⟩

theorem handleReplicate_pending_mem (state : ReplayState) (log : List LogEntry)
    (entry : LogEntry) (p : OpId × LogEntry)
    (hp : p ∈ ((HandleReplicateMessage state log entry).1).pending_replicates) :
    p ∈ state.pending_replicates ∨ p.2 = entry := by
  unfold HandleReplicateMessage at hp
  rcases h : CheckSequentialReplicateId state entry.operation with ⟨s1, st⟩
  rw [h] at hp
  have hpend : s1.pending_replicates = state.pending_replicates := by
    have hcp := checkSeq_pending state entry.operation
    rw [h] at hcp
    exact hcp
  cases st with
  | OK =>
    dsimp only at hp
    cases hf : s1.pending_replicates.find?
        (fun q => decide (q.1 = entry.operation.id.getD ⟨0, 0⟩)) with
    | some existing =>
      rw [hf] at hp
      dsimp only at hp
      left
      rw [← hpend]
      exact hp
    | none =>
      rw [hf] at hp
      dsimp only at hp
      rw [List.mem_append] at hp
      rcases hp with hp | hp
      · left
        rw [← hpend]
        exact hp
      · right
        rw [List.mem_singleton] at hp
        rw [hp]
  | Corruption m => exact Or.inl hp
  | IllegalState m => exact Or.inl hp
  | RuntimeError m => exact Or.inl hp
  | AlreadyPresent m => exact Or.inl hp
  | IOError m => exact Or.inl hp

theorem handleCommit_pending_mem (env : ReplayEnv) (meta : TabletMetadata)
    (state : ReplayState) (entry : LogEntry) (p : OpId × LogEntry)
    (hp : p ∈ ((HandleCommitMessage env meta state entry).1).pending_replicates) :
    p ∈ state.pending_replicates := by
  unfold HandleCommitMessage at hp
  dsimp only at hp
  rw [updateCommittedOpId_pending] at hp
  cases hf : state.pending_replicates.find?
      (fun q => decide (q.1 = (entry.operation.commit.getD defaultCommitMsg).commited_op_id)) with
  | some existing =>
    rw [hf] at hp
    dsimp only at hp
    exact List.mem_of_mem_filter hp
  | none =>
    rw [hf] at hp
    cases hg : findUnflushedStore meta (entry.operation.commit.getD defaultCommitMsg).result with
    | some t =>
      rw [hg] at hp
      dsimp only at hp
      rw [updateCommittedOpId_pending] at hp
      exact hp
    | none =>
      rw [hg] at hp
      dsimp only at hp
      rw [updateCommittedOpId_pending] at hp
      exact hp

theorem handleEntry_pending_mem (env : ReplayEnv) (meta : TabletMetadata)
    (state : ReplayState) (log : List LogEntry) (entry : LogEntry) (p : OpId × LogEntry)
    (hp : p ∈ ((HandleEntry env meta state log entry).1).pending_replicates) :
    p ∈ state.pending_replicates ∨
      (p.2 = entry ∧ entry.operation.replicate.isSome = true) := by
  unfold HandleEntry at hp
  cases hty : entry.type with
  | OPERATION =>
    rw [hty] at hp
    by_cases hrep : entry.operation.replicate.isSome = true
    · simp only [hrep, if_true] at hp
      rcases handleReplicate_pending_mem state log entry p hp with h | h
      · exact Or.inl h
      · exact Or.inr ⟨h, hrep⟩
    · simp only [hrep, Bool.false_eq_true, if_false] at hp
      by_cases hcom : entry.operation.commit.isSome = true
      · simp only [hcom, if_true] at hp
        exact Or.inl (handleCommit_pending_mem env meta state entry p hp)
      · simp only [hcom, Bool.false_eq_true, if_false] at hp
        exact Or.inl hp
  | FLUSH_MARKER =>
    rw [hty] at hp
    exact Or.inl hp

theorem replayEntries_pending_mem (env : ReplayEnv) (meta : TabletMetadata) :
    ∀ (entries : List LogEntry) (state : ReplayState) (log : List LogEntry)
      (p : OpId × LogEntry),
      p ∈ ((replayEntries env meta state log entries).1).pending_replicates →
      p ∈ state.pending_replicates ∨
        ∃ e ∈ entries, p.2 = e ∧ e.operation.replicate.isSome = true := by
  intro entries
  induction entries with
  | nil =>
    intro state log p hp
    exact Or.inl hp
  | cons entry rest ih =>
    intro state log p hp
    unfold replayEntries at hp
    rcases hh : HandleEntry env meta state log entry with ⟨s, l, st, effs⟩
    rw [hh] at hp
    have hstep : ∀ q : OpId × LogEntry, q ∈ s.pending_replicates →
        q ∈ state.pending_replicates ∨
          (q.2 = entry ∧ entry.operation.replicate.isSome = true) := by
      intro q hq
      exact handleEntry_pending_mem env meta state log entry q (by rw [hh]; exact hq)
    cases st with
    | OK =>
      dsimp only at hp
      rcases ih s l p hp with h1 | ⟨e, he, h2⟩
      · rcases hstep p h1 with h3 | h3
        · exact Or.inl h3
        · exact Or.inr ⟨entry, List.mem_cons_self entry rest, h3.1, h3.2⟩
      · exact Or.inr ⟨e, List.mem_cons_of_mem entry he, h2⟩
    | Corruption m =>
      dsimp only at hp
      rcases hstep p hp with h3 | h3
      · exact Or.inl h3
      · exact Or.inr ⟨entry, List.mem_cons_self entry rest, h3.1, h3.2⟩
    | IllegalState m =>
      dsimp only at hp
      rcases hstep p hp with h3 | h3
      · exact Or.inl h3
      · exact Or.inr ⟨entry, List.mem_cons_self entry rest, h3.1, h3.2⟩
    | RuntimeError m =>
      dsimp only at hp
      rcases hstep p hp with h3 | h3
      · exact Or.inl h3
      · exact Or.inr ⟨entry, List.mem_cons_self entry rest, h3.1, h3.2⟩
    | AlreadyPresent m =>
      dsimp only at hp
      rcases hstep p hp with h3 | h3
      · exact Or.inl h3
      · exact Or.inr ⟨entry, List.mem_cons_self entry rest, h3.1, h3.2⟩
    | IOError m =>
      dsimp only at hp
      rcases hstep p hp with h3 | h3
      · exact Or.inl h3
      · exact Or.inr ⟨entry, List.mem_cons_self entry rest, h3.1, h3.2⟩

/-- C4: when replay succeeds over an input stream, the bootstrap result has
`last_id` equal to the final `prev_op_id`, `last_committed_id` equal to the
final `committed_op_id`, and `orphaned_replicates` exactly the (never
matched) replicate operations remaining in `pending_replicates`; each of
those is the payload of a replicate entry of the input stream. -/
theorem C4_bootstrap_result_fields (env : ReplayEnv) (meta : TabletMetadata)
    (entries : List LogEntry) (res : BootstrapResult) (newLog : List LogEntry)
    (h : PlaySegments env meta entries = Except.ok (res, newLog)) :
    res.last_id = ((replayEntries env meta initReplayState [] entries).1).prev_op_id ∧
    res.last_committed_id =
      ((replayEntries env meta initReplayState [] entries).1).committed_op_id ∧
    res.orphaned_replicates =
      ((replayEntries env meta initReplayState [] entries).1).pending_replicates.map
        (fun p => p.2.operation) ∧
    ∀ op ∈ res.orphaned_replicates,
      ∃ e ∈ entries, e.operation = op ∧ op.replicate.isSome = true := by
  unfold PlaySegments at h
  rcases hr : replayEntries env meta initReplayState [] entries with ⟨s, l, st⟩
  rw [hr] at h
  cases st with
  | OK =>
    dsimp only at h
    rw [Except.ok.injEq, Prod.mk.injEq] at h
    obtain ⟨hres, hlog⟩ := h
    dsimp only
    refine ⟨by rw [← hres], by rw [← hres], by rw [← hres], ?_⟩
    intro op hop
    rw [← hres] at hop
    dsimp only at hop
    rw [List.mem_map] at hop
    obtain ⟨p, hpmem, hpop⟩ := hop
    have hmem := replayEntries_pending_mem env meta entries initReplayState [] p
      (by rw [hr]; exact hpmem)
    rcases hmem with habs | ⟨e, he, hpe, hsome⟩
    · exact absurd habs (List.not_mem_nil p)
    · refine ⟨e, he, ?_, ?_⟩
      · rw [← hpop, hpe]
      · rw [← hpop, hpe]
        exact hsome
  | Corruption m => exact absurd h (by simp)
  | IllegalState m => exact absurd h (by simp)
  | RuntimeError m => exact absurd h (by simp)
  | AlreadyPresent m => exact absurd h (by simp)
  | IOError m => exact absurd h (by simp)

/-- Whether `pat` occurs at the head of `cs`. -/
def beginsWith : List Char → List Char → Bool
  | [], _ => true
  | _ :: _, [] => false
  | a :: as, b :: bs => a == b && beginsWith as bs

/-- Substring containment on strings, used to state what a status message
mentions. -/
def strContains (s pat : String) : Bool :=
  (List.range (s.data.length + 1)).any (fun i => beginsWith pat.data (s.data.drop i))

/-- Replicate entry with OpId (1,1), a WRITE_OP. -/
def entry_1_1 : LogEntry :=
  { type := LogEntryType.OPERATION,
    operation := { id := some ⟨1, 1⟩,
                   replicate := some { op_type := OperationType.WRITE_OP },
                   commit := none } }

/-- Replicate entry with OpId (1,3), a WRITE_OP. -/
def entry_1_3 : LogEntry :=
  { type := LogEntryType.OPERATION,
    operation := { id := some ⟨1, 3⟩,
                   replicate := some { op_type := OperationType.WRITE_OP },
                   commit := none } }

/-- The replay run of the out-of-sequence scenario: Replicate(1,1) accepted
from the initial state, then Replicate(1,3) handled next. -/
def c8Run : ReplayState × List LogEntry × Status :=
  HandleReplicateMessage (HandleReplicateMessage initReplayState [] entry_1_1).1
    ((HandleReplicateMessage initReplayState [] entry_1_1).2.1) entry_1_3

/-- C8 counterexample: in the out-of-sequence scenario the first replicate is
accepted and the second is rejected with Corruption, but the Corruption
message does not contain the text "Unexpected opid following 1,1" — the code
renders the previous id via protobuf ShortDebugString, as
"opid term: 1 index: 1". -/
theorem C8_counterexample :
    (HandleReplicateMessage initReplayState [] entry_1_1).2.2 = Status.OK ∧
    (c8Run.2.2).isCorruption = true ∧
    strContains (c8Run.2.2).message "Unexpected opid following 1,1" = false := by
  refine ⟨rfl, rfl, ?_⟩
  rfl

/-- C8 (amended): if a replicate with OpId (1,1) has been accepted and the
next replicate carries OpId (1,3), handling it returns a Corruption status
whose message contains the text
"Unexpected opid following opid term: 1 index: 1". -/
theorem C8_amended_message :
    (c8Run.2.2).isCorruption = true ∧
    strContains (c8Run.2.2).message
      "Unexpected opid following opid term: 1 index: 1" = true := by
  refine ⟨rfl, ?_⟩
  rfl

/-- Metadata with nothing flushed yet: last durable MRS id 0, no rowsets. -/
def meta0 : TabletMetadata := { last_durable_mrs_id := 0, rowsets := [] }

/-- An orphan commit for OpId (1,1) whose single row landed in MRS 5 (not
flushed under `meta0`). -/
def commitOrphan : CommitMsg :=
  { commited_op_id := ⟨1, 1⟩, op_type := OperationType.WRITE_OP,
    result := [{ failed_status := none, mutated_stores := [MemStoreTarget.mrs 5] }],
    timestamp := 7 }

/-- The log entry carrying `commitOrphan`. -/
def entryOrphan : LogEntry :=
  { type := LogEntryType.OPERATION,
    operation := { id := none, replicate := none, commit := some commitOrphan } }

theorem C2_orphan_commit_corruption_witness :
    entryOrphan.operation.commit = some commitOrphan ∧
    initReplayState.pending_replicates.find?
      (fun p => decide (p.1 = commitOrphan.commited_op_id)) = none ∧
    (((((HandleCommitMessage trivialEnv meta0 initReplayState entryOrphan).2.1).isCorruption
        = true) ↔
      commitOrphan.result.any (fun r =>
        r.mutated_stores.any (fun t => !(WasStoreAlreadyFlushed meta0 t))) = true) ∧
    (commitOrphan.result.any (fun r =>
        r.mutated_stores.any (fun t => !(WasStoreAlreadyFlushed meta0 t))) = false →
      (HandleCommitMessage trivialEnv meta0 initReplayState entryOrphan).2.1 = Status.OK)) :=
  ⟨rfl, rfl,
    C2_orphan_commit_corruption trivialEnv meta0 initReplayState entryOrphan commitOrphan
      rfl rfl⟩

/-- The bootstrap result of replaying the single uncommitted Replicate(1,1). -/
def res0 : BootstrapResult :=
  { last_id := ⟨1, 1⟩, last_committed_id := ⟨0, 0⟩,
    orphaned_replicates := [entry_1_1.operation] }

theorem C4_bootstrap_result_fields_witness :
    PlaySegments trivialEnv meta0 [entry_1_1] = Except.ok (res0, [entry_1_1]) ∧
    (res0.last_id =
        ((replayEntries trivialEnv meta0 initReplayState [] [entry_1_1]).1).prev_op_id ∧
      res0.last_committed_id =
        ((replayEntries trivialEnv meta0 initReplayState [] [entry_1_1]).1).committed_op_id ∧
      res0.orphaned_replicates =
        ((replayEntries trivialEnv meta0 initReplayState [] [entry_1_1]).1).pending_replicates.map
          (fun p => p.2.operation) ∧
      ∀ op ∈ res0.orphaned_replicates,
        ∃ e ∈ [entry_1_1], e.operation = op ∧ op.replicate.isSome = true) :=
  ⟨rfl, C4_bootstrap_result_fields trivialEnv meta0 [entry_1_1] res0 [entry_1_1] rfl⟩

/-- A commit entry whose op-type is OP_ABORT. -/
def entryAbort : LogEntry :=
  { type := LogEntryType.OPERATION,
    operation := { id := none, replicate := none,
                   commit := some { commited_op_id := ⟨1, 1⟩,
                                    op_type := OperationType.OP_ABORT,
                                    result := [], timestamp := 0 } } }

theorem C6_abort_pair_is_noop_witness :
    (entryAbort.operation.commit.getD defaultCommitMsg).op_type =
      OperationType.OP_ABORT ∧
    HandleEntryPair trivialEnv entry_1_1 entryAbort = (Status.OK, []) :=
  ⟨rfl, C6_abort_pair_is_noop trivialEnv entry_1_1 entryAbort rfl⟩

/-- An OPERATION entry with neither replicate nor commit payload. -/
def entryBare : LogEntry :=
  { type := LogEntryType.OPERATION,
    operation := { id := none, replicate := none, commit := none } }

theorem C9_operation_without_payload_is_ok_witness :
    entryBare.type = LogEntryType.OPERATION ∧
    entryBare.operation.replicate = none ∧
    entryBare.operation.commit = none ∧
    HandleEntry trivialEnv meta0 initReplayState [] entryBare =
      (initReplayState, [], Status.OK, []) :=
  ⟨rfl, rfl, rfl,
    C9_operation_without_payload_is_ok trivialEnv meta0 initReplayState [] entryBare
      rfl rfl rfl⟩

/-- Replicate entry with the uninitialized OpId (0,0): since `prev_op_id`
stays (0,0) after accepting it, a second copy passes the sequence check and
collides in `pending_replicates`. -/
def entry_0_0 : LogEntry :=
  { type := LogEntryType.OPERATION,
    operation := { id := some ⟨0, 0⟩,
                   replicate := some { op_type := OperationType.WRITE_OP },
                   commit := none } }

/-- Replay state right after accepting `entry_0_0` once. -/
def stateDup : ReplayState :=
  { prev_op_id := ⟨0, 0⟩, committed_op_id := ⟨0, 0⟩,
    pending_replicates := [(⟨0, 0⟩, entry_0_0)] }

theorem C10_duplicate_appended_before_error_witness :
    (CheckSequentialReplicateId stateDup entry_0_0.operation).2 = Status.OK ∧
    ((CheckSequentialReplicateId stateDup entry_0_0.operation).1).pending_replicates.find?
        (fun p => decide (p.1 = entry_0_0.operation.id.getD ⟨0, 0⟩)) ≠ none ∧
    ((HandleReplicateMessage stateDup [] entry_0_0).2.1 = [] ++ [entry_0_0] ∧
      ((HandleReplicateMessage stateDup [] entry_0_0).2.2).isCorruption = true) :=
  ⟨rfl, by decide,
    C10_duplicate_appended_before_error stateDup [] entry_0_0 rfl (by decide)⟩

end Kudu
